import Mathlib

/-!
Verification of the capture–detect–announce supervisory loop of
`blind_assist_ver1.py`.

The Python source is shallowly embedded: every pure computation of the
program (string stripping, response parsing, line scanning, the failure
taxonomy of `capture_image`, the announcement formatting of `main_loop`,
and the sleep-slice loop) is translated into an executable Lean
definition; every external effect (the `shutil.which` probe, the capture
subprocess, the Gemini call, `pactl`, the filesystem) is an explicit
environment value enumerating the outcomes the Python code distinguishes
via its `try`/`except` blocks and return codes.  The supervisory loop is
modelled as a trace generator: a run produces a list of observable
events (speech calls, frame saves, detection calls, `pactl` route calls,
sleep slices, process exit), and the theorems below are statements about
those traces.
-/

namespace BlindAssist

/-! ## Python string primitives

Models of the CPython `str` operations the source uses, written over
`List Char`.  `str.strip` with no argument strips ASCII whitespace;
`str.strip("`")` strips backticks; `str.split()` splits on whitespace
runs dropping empty fields; `str.splitlines` splits on line breaks
without a trailing empty line; `str.lower` is modelled for ASCII (the
only prefix ever tested is "json").
-/

def backtick : Char := Char.ofNat 96

def openBrace : Char := Char.ofNat 123

def closeBrace : Char := Char.ofNat 125

def isPySpace (c : Char) : Bool :=
  c = ' ' || c = '\t' || c = '\n' || c = '\r' || c = '\x0b' || c = '\x0c'

def stripList (p : Char → Bool) (l : List Char) : List Char :=
  ((l.dropWhile p).reverse.dropWhile p).reverse

def pyStrip (s : String) : String := String.mk (stripList isPySpace s.data)

def stripBackticks (s : String) : String :=
  String.mk (stripList (fun c => c = backtick) s.data)

def lowerChar (c : Char) : Char :=
  if 65 ≤ c.toNat ∧ c.toNat ≤ 90 then Char.ofNat (c.toNat + 32) else c

def pyLower (s : String) : String := String.mk (s.data.map lowerChar)

/-- Python `str.startswith`: the second list begins with the first. -/
def listStarts (pre s : List Char) : Bool := s.take pre.length == pre

def hasSub (needle : List Char) : List Char → Bool
  | [] => listStarts needle []
  | c :: r => listStarts needle (c :: r) || hasSub needle r

def pySplitAux : List Char → List Char → List String
  | acc, [] => if acc.isEmpty then [] else [String.mk acc.reverse]
  | acc, c :: r =>
    if isPySpace c then
      if acc.isEmpty then pySplitAux [] r
      else String.mk acc.reverse :: pySplitAux [] r
    else pySplitAux (c :: acc) r

def pySplit (s : String) : List String := pySplitAux [] s.data

def pySplitlinesAux : List Char → List Char → List String
  | acc, [] => if acc.isEmpty then [] else [String.mk acc.reverse]
  | acc, '\r' :: '\n' :: rest => String.mk acc.reverse :: pySplitlinesAux [] rest
  | acc, '\n' :: rest => String.mk acc.reverse :: pySplitlinesAux [] rest
  | acc, '\r' :: rest => String.mk acc.reverse :: pySplitlinesAux [] rest
  | acc, c :: rest => pySplitlinesAux (c :: acc) rest

def pySplitlines (s : String) : List String := pySplitlinesAux [] s.data

/-! ## JSON values and `json.loads`

Model of the fragment of `json.loads` the program's contract uses.
Values are null, booleans, integers, strings, arrays and objects
(an object keeps its members in source order; lookup takes the last
binding, as a Python dict built by successive assignment does).
Deviations from CPython, all outside every claim: number literals are
restricted to integers (a fractional or exponent form is rejected, and
floating point is not representable here anyway), and `\u` string
escapes are rejected.
-/

inductive Json where
  | null
  | bool (b : Bool)
  | num (n : Int)
  | str (s : String)
  | arr (xs : List Json)
  | obj (kvs : List (String × Json))

def isJsonWs (c : Char) : Bool := c = ' ' || c = '\t' || c = '\n' || c = '\r'

def skipWs (s : List Char) : List Char := s.dropWhile isJsonWs

/-- The short string-escape table (`\u` escapes are rejected, see
above). -/
def escTable : List (Char × Char) :=
  [('"', '"'), ('\\', '\\'), ('/', '/'), ('n', '\n'),
   ('t', '\t'), ('r', '\r'), ('b', '\x08'), ('f', '\x0c')]

def escChar (e : Char) : Option Char :=
  (escTable.find? (fun p => p.1 = e)).map (fun p => p.2)

def parseStrBody : List Char → List Char → Option (String × List Char)
  | acc, c :: r =>
    if c = '"' then some (String.mk acc.reverse, r)
    else if c = '\\' then
      match r with
      | e :: r2 =>
        match escChar e with
        | some ce => parseStrBody (ce :: acc) r2
        | none => none
      | [] => none
    else if c.toNat < 32 then none
    else parseStrBody (c :: acc) r
  | _, [] => none

def parseDigits : List Char → Nat → Nat × List Char
  | c :: r, acc => if c.isDigit then parseDigits r (acc * 10 + (c.toNat - 48)) else (acc, c :: r)
  | [], acc => (acc, [])

def parseUIntJ : List Char → Option (Nat × List Char)
  | c :: r =>
    if c = '0' then
      match r with
      | d :: _ => if d.isDigit then none else some (0, r)
      | [] => some (0, [])
    else if c.isDigit then some (parseDigits r (c.toNat - 48))
    else none
  | [] => none

def parseIntJ : List Char → Option (Int × List Char)
  | '-' :: r => (parseUIntJ r).map (fun p => (-(p.1 : Int), p.2))
  | s => (parseUIntJ s).map (fun p => ((p.1 : Int), p.2))

def parseNumJ (s : List Char) : Option (Int × List Char) :=
  match parseIntJ s with
  | some (n, rest) =>
    match rest with
    | c :: _ => if c = '.' || c = 'e' || c = 'E' then none else some (n, rest)
    | [] => some (n, [])
  | none => none

/-- Parsing task: a JSON value, the members of an object after its
opening brace, or the elements of an array after its opening bracket. -/
inductive PTask where
  | val (s : List Char)
  | members (s : List Char)
  | elems (s : List Char)

inductive PRes where
  | v (j : Json) (rest : List Char)
  | ms (kvs : List (String × Json)) (rest : List Char)
  | es (xs : List Json) (rest : List Char)

def parseStep : Nat → PTask → Option PRes
  | 0, _ => none
  | Nat.succ f, PTask.val s0 =>
    let s := skipWs s0
    if listStarts (("null").data) s then some (PRes.v Json.null (s.drop 4))
    else if listStarts (("true").data) s then some (PRes.v (Json.bool true) (s.drop 4))
    else if listStarts (("false").data) s then some (PRes.v (Json.bool false) (s.drop 5))
    else
      match s with
      | [] => none
      | c :: r =>
        if c = '"' then
          match parseStrBody [] r with
          | some (st, rest) => some (PRes.v (Json.str st) rest)
          | none => none
        else if c = openBrace then
          match skipWs r with
          | d :: r2 =>
            if d = closeBrace then some (PRes.v (Json.obj []) r2)
            else
              match parseStep f (PTask.members (skipWs r)) with
              | some (PRes.ms kvs rest) => some (PRes.v (Json.obj kvs) rest)
              | _ => none
          | [] => none
        else if c = '[' then
          match skipWs r with
          | d :: r2 =>
            if d = ']' then some (PRes.v (Json.arr []) r2)
            else
              match parseStep f (PTask.elems (skipWs r)) with
              | some (PRes.es xs rest) => some (PRes.v (Json.arr xs) rest)
              | _ => none
          | [] => none
        else
          match parseNumJ s with
          | some (n, rest) => some (PRes.v (Json.num n) rest)
          | none => none
  | Nat.succ f, PTask.members s0 =>
    match skipWs s0 with
    | c :: r =>
      if c = '"' then
        match parseStrBody [] r with
        | some (k, r1) =>
          match skipWs r1 with
          | ':' :: r2 =>
            match parseStep f (PTask.val r2) with
            | some (PRes.v v r3) =>
              match skipWs r3 with
              | ',' :: r4 =>
                match parseStep f (PTask.members r4) with
                | some (PRes.ms kvs rest) => some (PRes.ms ((k, v) :: kvs) rest)
                | _ => none
              | d :: r4 => if d = closeBrace then some (PRes.ms [(k, v)] r4) else none
              | [] => none
            | _ => none
          | _ => none
        | none => none
      else none
    | [] => none
  | Nat.succ f, PTask.elems s0 =>
    match parseStep f (PTask.val s0) with
    | some (PRes.v v r1) =>
      match skipWs r1 with
      | ',' :: r2 =>
        match parseStep f (PTask.elems r2) with
        | some (PRes.es xs rest) => some (PRes.es (v :: xs) rest)
        | _ => none
      | d :: r2 => if d = ']' then some (PRes.es [v] r2) else none
      | [] => none
    | _ => none

/-- Model of `json.loads`: parse one JSON value and require that only
whitespace remains (CPython raises on trailing data, which the caller
turns into `None`). -/
def jsonParse (s : String) : Option Json :=
  match parseStep (s.data.length + 2) (PTask.val s.data) with
  | some (PRes.v j rest) => if (skipWs rest).isEmpty then some j else none
  | _ => none

/-! ## Configuration constants (source lines 33–42) -/

def CAPTURE_DIR : String := "/home/pi/captures"

def TEMP_IMAGE_FILE : String := "/tmp/capture.jpg"

/-- `INTERVAL = 5` seconds between captures. -/
def INTERVAL : Nat := 5

def CAM_WIDTH : Nat := 1280

def CAM_HEIGHT : Nat := 720

def CAM_TIMEOUT_MS : Nat := 1400

def BT_CARD_PREFIX : String := "bluez_card"

def A2DP_PROFILE : String := "a2dp-sink"

/-! ## Detection client: `call_gemini_for_image` (source lines 82–116)

The external effects of the function — the module-level client handle
and the network round trip — are an environment value: either the
client never initialized (`gemini_client = None`), or the call (image
encoding, `generate_content`, `response.text`) raised, or the call
returned a response text.
-/

inductive GeminiEnv where
  | noClient
  | callRaises
  | responds (text : String)

/-- The response clean-up of `call_gemini_for_image` (source lines
106–110): strip whitespace; if the text starts with a code fence, strip
all leading and trailing backticks and strip again; if it then starts
with a `json` language tag (case-insensitive), drop those four
characters and strip again. -/
def stripResponseText (t : String) : String :=
  let raw := pyStrip t
  let raw1 := if listStarts (("```").data) raw.data then pyStrip (stripBackticks raw) else raw
  if listStarts (("json").data) (pyLower raw1).data then pyStrip (String.mk (raw1.data.drop 4))
  else raw1

/-- `call_gemini_for_image`: `None` when the client is uninitialized,
`None` when anything in the `try` block raises (the network call or an
unparseable body — `json.loads` raising is caught by the same
`except`), and otherwise the parsed JSON value, returned with no shape
validation. -/
def call_gemini_for_image : GeminiEnv → Option Json
  | GeminiEnv.noClient => none
  | GeminiEnv.callRaises => none
  | GeminiEnv.responds t => jsonParse (stripResponseText t)

/-! ## Python `str()` of a parsed JSON value

`main_loop` interpolates the values of `det.get(...)` into an f-string,
which calls CPython `str()`: identity on `str`, `repr` on everything
else (`None`/`True`/`False`, decimal integers, bracketed containers
whose elements are rendered by `repr`, strings quoted with `'`).
-/

def sq : String := String.singleton (Char.ofNat 39)

mutual

def pyRepr : Json → String
  | Json.null => "None"
  | Json.bool b => if b then "True" else "False"
  | Json.num n => toString n
  | Json.str s => sq ++ s ++ sq
  | Json.arr xs => ("[") ++ pyReprArr xs ++ ("]")
  | Json.obj kvs => String.singleton openBrace ++ pyReprObj kvs ++ String.singleton closeBrace

def pyReprArr : List Json → String
  | [] => ""
  | [x] => pyRepr x
  | x :: xs => pyRepr x ++ (", ") ++ pyReprArr xs

def pyReprObj : List (String × Json) → String
  | [] => ""
  | [kv] => sq ++ kv.1 ++ sq ++ (": ") ++ pyRepr kv.2
  | kv :: kvs => sq ++ kv.1 ++ sq ++ (": ") ++ pyRepr kv.2 ++ (", ") ++ pyReprObj kvs

end

def pyStr : Json → String
  | Json.str s => s
  | j => pyRepr j

/-- Python `dict.get` on the dict `json.loads` builds: the last binding
of a key wins. -/
def objGet (kvs : List (String × Json)) (k : String) : Option Json :=
  (kvs.reverse.find? (fun kv => kv.1 == k)).map (fun kv => kv.2)

/-! ## Capture adapter: `get_camera_command` and `capture_image`
(source lines 154–187) -/

/-- In-memory image handle: what `Image.open(TEMP_IMAGE_FILE)` yields. -/
structure Image where
  path : String
deriving DecidableEq

/-- Outcome of `subprocess.run(cmd, ..., timeout=18)`. -/
inductive RunOutcome where
  | timeoutExpired
  | raised
  | done (rc : Int) (stderr : String)

/-- External facts one call of `capture_image` observes: the
`shutil.which` probe, whether the scratch file pre-exists and whether
removing it raises, the subprocess outcome, whether the scratch file
exists afterwards, and whether `Image.open` raises. -/
structure CaptureEnv where
  which : String → Option String
  tempExists0 : Bool
  removeRaises : Bool
  run : RunOutcome
  tempExistsAfter : Bool
  openRaises : Bool

/-- `get_camera_command`: probe `rpicam-still`, `libcamera-still`,
`raspistill` in order and build the first found backend's argument
list. -/
def get_camera_command (which : String → Option String) (out : String)
    (w h t : Nat) : Option (List String) :=
  match which ("rpicam-still") with
  | some path =>
    some [path, "-o", out, "-t", toString t, "--width", toString w, "--height", toString h, "-n"]
  | none =>
    match which ("libcamera-still") with
    | some path =>
      some [path, "-o", out, "--timeout", toString t, "--width", toString w,
            "--height", toString h, "--nopreview"]
    | none =>
      match which ("raspistill") with
      | some path =>
        some [path, "-o", out, "-t", toString t, "-w", toString w, "-h", toString h]
      | none => none

/-- `capture_image`, returning the Python triple
`(image or None, failure tag or None, stderr text or None)`.  The tags
are the source's strings: `"no_camera"` (spec name
`no_backend_available`), `"camera_failed"` (`process_nonzero_exit`),
`"file_missing"` (`output_file_missing`), `"timeout"` (`timeout`) and
`"exception"` (`unexpected_exception`). -/
def capture_image (env : CaptureEnv) : Option Image × Option String × Option String :=
  match get_camera_command env.which TEMP_IMAGE_FILE CAM_WIDTH CAM_HEIGHT CAM_TIMEOUT_MS with
  | none => (none, some ("no_camera"), none)
  | some _ =>
    if env.tempExists0 && env.removeRaises then (none, some ("exception"), none)
    else
      match env.run with
      | RunOutcome.timeoutExpired => (none, some ("timeout"), none)
      | RunOutcome.raised => (none, some ("exception"), none)
      | RunOutcome.done rc stderrRaw =>
        let err := pyStrip stderrRaw
        if rc ≠ 0 then (none, some ("camera_failed"), some err)
        else if !env.tempExistsAfter then (none, some ("file_missing"), some err)
        else if env.openRaises then (none, some ("exception"), none)
        else (some (Image.mk TEMP_IMAGE_FILE), none, some err)

/-- Marks whether the source reaches its `subprocess.run` call: a
backend was found and the scratch-file removal did not raise first. -/
def capture_spawns (env : CaptureEnv) : Bool :=
  (get_camera_command env.which TEMP_IMAGE_FILE CAM_WIDTH CAM_HEIGHT CAM_TIMEOUT_MS).isSome
    && !(env.tempExists0 && env.removeRaises)

/-! ## Audio router: `find_bt_card` and `set_card_profile`
(source lines 119–151)

`run_cmd` returns the command's decoded output, or `None` when
`check_output` raised; its result is therefore modelled directly as an
`Option String` environment value.
-/

/-- The per-line test of `find_bt_card`: at least two
whitespace-separated fields and the second starts with `bluez_card`
(the source spells the prefix literally; it equals `BT_CARD_PREFIX`). -/
def btLineCard (line : String) : Option String :=
  let parts := pySplit line
  match parts.get? 1 with
  | some p => if listStarts (("bluez_card").data) p.data then some p else none
  | none => none

def findBtLines : List String → Option String
  | [] => none
  | l :: ls =>
    match btLineCard l with
    | some c => some c
    | none => findBtLines ls

/-- `find_bt_card`: scan the lines of `pactl list short cards`
(`None` output collapses to `""`) and return the first Bluetooth card
identifier, else `None`. -/
def find_bt_card (cardsOut : Option String) : Option String :=
  findBtLines (pySplitlines (cardsOut.getD ("")))

/-- Outcome of the `pactl set-card-profile` subprocess call. -/
inductive SetProfileOutcome where
  | raised
  | done (rc : Int)

/-- External facts one call of `set_card_profile` observes: the
profile-set call outcome, the `pactl list short sinks` output (`none`
when `run_cmd` failed), and whether `pactl set-default-sink` raises. -/
structure ProfileEnv where
  setProfile : SetProfileOutcome
  sinksOut : Option String
  setDefaultRaises : Bool

/-- `set_card_profile`, as a transformer of the system default sink
(the second component; the source's only interaction with it is the
overwrite by `pactl set-default-sink`).  Returns the source's boolean
plus the resulting default sink.  Mirrors the source exactly: on
`returncode == 0` it scans the sink lines for the first containing the
card name as a substring; `l.split()[1]` on a matching line with fewer
than two fields raises `IndexError`, which the enclosing `except`
converts to `False`, as does a raising `set-default-sink` call. -/
def set_card_profile (env : ProfileEnv) (card : String) (_profile : String)
    (defaultSink : Option String) : Bool × Option String :=
  match env.setProfile with
  | SetProfileOutcome.raised => (false, defaultSink)
  | SetProfileOutcome.done rc =>
    if rc = 0 then
      let sinks := env.sinksOut.getD ("")
      match (pySplitlines sinks).find? (fun l => hasSub card.data l.data) with
      | none => (true, defaultSink)
      | some l =>
        match (pySplit l)[1]? with
        | none => (false, defaultSink)
        | some sink =>
          if env.setDefaultRaises then (false, defaultSink) else (true, some sink)
    else (false, defaultSink)

/-! ## Supervisory loop: `main_loop` (source lines 193–242)

The loop is modelled as a trace generator.  One cycle of the `while`
body maps its environment to a list of observable events plus an abort
flag: the flag is true exactly when an exception escapes the cycle
body, which in the source can only be `im.save(fname)` raising — every
other statement of the body either is total or catches its own
exceptions (`capture_image`, `call_gemini_for_image`,
`set_card_profile`, `speak` all return normally on internal failure).
An abort is caught by the `except Exception` handler *outside* the
`while`, so it ends the loop: the `finally` block re-asserts the audio
route and the process exits.  A `KeyboardInterrupt` during a sleep
slice is caught by the `except KeyboardInterrupt` handler, which
speaks a final blocking goodbye before the same `finally` block.

An `Event.speak` records a call of the source's `speak` helper (which
itself is a logged no-op when the TTS engine failed to initialize, and
never raises).
-/

inductive Event where
  | cycleStart (k : Nat)
  | speak (text : String) (blocking : Bool)
  | saveFrame (fname : String)
  | detectCall
  | route (card : String) (profile : String)
  | sleepSlice
  | exit
deriving DecidableEq

/-- The persisted-frame name `f"capture_\x7bts\x7d.jpg"` joined under the
capture directory. -/
def fnameFor (ts : Nat) : String :=
  CAPTURE_DIR ++ ("/capture_") ++ toString ts ++ (".jpg")

/-- The announcement text of one successful-capture cycle (source lines
216–222): the formatted result when `json.loads` produced a dict, the
fixed fallback otherwise, with the source's `dict.get` defaults. -/
def announceText : Option Json → String
  | some (Json.obj kvs) =>
    let curr := match objGet kvs ("currency") with
      | some v => pyStr v
      | none => "unknown"
    let den := match objGet kvs ("denomination") with
      | some v => pyStr v
      | none => "unknown"
    let conf := match objGet kvs ("confidence") with
      | some v => pyStr v
      | none => "low"
    ("Detected ") ++ den ++ (" ") ++ curr ++ (" with ") ++ conf ++ (" confidence.")
  | some _ => "Detection unavailable."
  | none => "Detection unavailable."

/-- The `Routing` step of a successful cycle: `set_card_profile` is
invoked only when a Bluetooth card was discovered at startup. -/
def btRoute : Option String → List Event
  | some c => [Event.route c A2DP_PROFILE]
  | none => []

/-- The `finally`-block route re-assertion: same condition. -/
def btReassert : Option String → List Event
  | some c => [Event.route c A2DP_PROFILE]
  | none => []

/-- Everything after the `while` loop is left: the goodbye announcement
(only on `KeyboardInterrupt`; a plain exception is only logged), then
the `finally` block. -/
def shutdownTrace (btCard : Option String) (interrupted : Bool) : List Event :=
  (if interrupted then [Event.speak ("Stopping capture. Goodbye.") true] else [])
    ++ btReassert btCard ++ [Event.exit]

/-- External facts one iteration of the `while` body observes. -/
structure CycleEnv where
  cap : CaptureEnv
  ts : Nat
  saveRaises : Bool
  gem : GeminiEnv

/-- One iteration of the `while` body (source lines 202–227), minus the
sleep loop: its events and whether an exception escaped.  On capture
failure the error tag is interpolated into the announcement (the tag is
always set when the image is `None`; `getD "None"` is how an absent tag
would print).  On success, a raising `im.save` aborts the iteration;
otherwise the frame is saved, the detection client is called, the
route is ensured when a Bluetooth card is present, and the formatted
text is spoken non-blocking. -/
def runCycle (btCard : Option String) (env : CycleEnv) : List Event × Bool :=
  match capture_image env.cap with
  | (none, errTag, _) =>
    ([Event.speak (("Capture failed: ") ++ errTag.getD ("None")) false], false)
  | (some _, _, _) =>
    if env.saveRaises then ([], true)
    else
      ([Event.saveFrame (fnameFor env.ts), Event.detectCall]
        ++ btRoute btCard
        ++ [Event.speak (announceText (call_gemini_for_image env.gem)) false], false)

/-! ### The sleep loop (source lines 229–232)

`slept` starts at `0.0` and each slice sleeps `0.25` s and adds `0.25`;
both are exact binary floating-point quarters, so the loop is exactly
the integer loop below in quarter-second units.  `sleepLoopAux` counts
the `time.sleep` calls; its fuel strictly exceeds the iteration count,
so the fuel-exhausted branch is never reached.
-/

/-- `INTERVAL` in quarter-second slices. -/
def INTERVAL_Q : Nat := INTERVAL * 4

def sleepLoopAux : Nat → Nat → Nat
  | 0, _ => 0
  | Nat.succ f, slept => if slept < INTERVAL_Q then sleepLoopAux f (slept + 1) + 1 else 0

/-- Number of sleep slices one pass of the sleep loop performs. -/
def sleepSliceCount : Nat := sleepLoopAux (INTERVAL_Q + 1) 0

def sleepEvents : List Event := List.replicate sleepSliceCount Event.sleepSlice

/-- Trace of the first `n` iterations of the `while` loop starting at
cycle index `i`, with no interrupt delivered: an aborting iteration
ends the loop through the outer exception handler and the `finally`
block; otherwise the full sleep runs and the next iteration follows.
A trace without `Event.exit` means the loop is still running at the
observation horizon `n`. -/
def runCyclesAux (btCard : Option String) (envs : Nat → CycleEnv) : Nat → Nat → List Event
  | _, 0 => []
  | i, Nat.succ n =>
    let r := runCycle btCard (envs i)
    Event.cycleStart i ::
      (r.1 ++ (if r.2 then shutdownTrace btCard false
               else sleepEvents ++ runCyclesAux btCard envs (i + 1) n))

/-- Trace of the loop when a `KeyboardInterrupt` is delivered during
the sleep of the `k`-th remaining iteration, after `slice` completed
slices: the interrupt handler speaks the blocking goodbye and the
`finally` block runs. -/
def runInterruptAux (btCard : Option String) (envs : Nat → CycleEnv) :
    Nat → Nat → Nat → List Event
  | i, 0, slice =>
    let r := runCycle btCard (envs i)
    Event.cycleStart i ::
      (r.1 ++ (if r.2 then shutdownTrace btCard false
               else List.replicate slice Event.sleepSlice ++ shutdownTrace btCard true))
  | i, Nat.succ k, slice =>
    let r := runCycle btCard (envs i)
    Event.cycleStart i ::
      (r.1 ++ (if r.2 then shutdownTrace btCard false
               else sleepEvents ++ runInterruptAux btCard envs (i + 1) k slice))

/-- The source's startup announcement, spoken non-blocking before the
loop (source line 197). -/
def startupSpeak : Event := Event.speak ("System ready. Starting live capture.") false

/-- `main_loop` observed for `n` cycles with no interrupt:
`find_bt_card` runs once at startup on the `pactl list short cards`
output `cardsOut`, the startup announcement is spoken, then the loop
runs. -/
def main_loop_cycles (cardsOut : Option String) (envs : Nat → CycleEnv) (n : Nat) :
    List Event :=
  startupSpeak :: runCyclesAux (find_bt_card cardsOut) envs 0 n

/-- `main_loop` when an interrupt arrives during the sleep of cycle `k`
(0-based), after `slice` completed slices. -/
def main_loop_interrupted (cardsOut : Option String) (envs : Nat → CycleEnv)
    (k slice : Nat) : List Event :=
  startupSpeak :: runInterruptAux (find_bt_card cardsOut) envs 0 k slice

/-! ### Event classifiers used by the theorems -/

def isSpeak : Event → Bool
  | Event.speak _ _ => true
  | _ => false

def isBlockingSpeak : Event → Bool
  | Event.speak _ true => true
  | _ => false

def isStart : Event → Bool
  | Event.cycleStart _ => true
  | _ => false

def isDetect : Event → Bool
  | Event.detectCall => true
  | _ => false

def isRoute : Event → Bool
  | Event.route _ _ => true
  | _ => false

def isExit : Event → Bool
  | Event.exit => true
  | _ => false

/-- The three announcement shapes the spec names: the fixed fallback,
a capture-failure phrase, or the formatted detection result. -/
def isAnnouncementShape (t : String) : Prop :=
  t = "Detection unavailable." ∨
  (∃ e, t = ("Capture failed: ") ++ e) ∨
  (∃ den curr conf,
    t = ("Detected ") ++ den ++ (" ") ++ curr ++ (" with ") ++ conf ++ (" confidence."))

/-! ## Helper lemmas about cycle traces -/

theorem runCycle_abort_nil (btCard : Option String) (env : CycleEnv)
    (h : (runCycle btCard env).2 = true) : (runCycle btCard env).1 = [] := by
  rcases hc : capture_image env.cap with ⟨im, tag, d⟩
  cases im with
  | none => simp [runCycle, hc] at h
  | some img =>
    by_cases hs : env.saveRaises
    · simp [runCycle, hc, hs]
    · simp [runCycle, hc, hs] at h

theorem runCycle_event_kinds (btCard : Option String) (env : CycleEnv) :
    ∀ e ∈ (runCycle btCard env).1,
      isStart e = false ∧ isBlockingSpeak e = false ∧ isExit e = false := by
  intro e he
  rcases hc : capture_image env.cap with ⟨im, tag, d⟩
  cases im with
  | none =>
    simp [runCycle, hc] at he
    simp [he, isStart, isBlockingSpeak, isExit]
  | some img =>
    by_cases hs : env.saveRaises
    · simp [runCycle, hc, hs] at he
    · simp [runCycle, hc, hs] at he
      rcases he with h | h | h | h
      · simp [h, isStart, isBlockingSpeak, isExit]
      · simp [h, isStart, isBlockingSpeak, isExit]
      · cases btCard with
        | none => simp [btRoute] at h
        | some c =>
          simp [btRoute] at h
          simp [h, isStart, isBlockingSpeak, isExit]
      · simp [h, isStart, isBlockingSpeak, isExit]

theorem runCycle_speak_once (btCard : Option String) (env : CycleEnv)
    (h : (runCycle btCard env).2 = false) :
    (runCycle btCard env).1.countP isSpeak = 1 := by
  rcases hc : capture_image env.cap with ⟨im, tag, d⟩
  cases im with
  | none => simp [runCycle, hc, isSpeak]
  | some img =>
    by_cases hs : env.saveRaises
    · simp [runCycle, hc, hs] at h
    · cases btCard with
      | none => simp [runCycle, hc, hs, btRoute, isSpeak, List.countP_cons, List.countP_append]
      | some c => simp [runCycle, hc, hs, btRoute, isSpeak, List.countP_cons, List.countP_append]

theorem runCycle_speak_shape (btCard : Option String) (env : CycleEnv) :
    ∀ t b, Event.speak t b ∈ (runCycle btCard env).1 →
      b = false ∧ isAnnouncementShape t := by
  intro t b he
  rcases hc : capture_image env.cap with ⟨im, tag, d⟩
  cases im with
  | none =>
    simp [runCycle, hc] at he
    refine ⟨he.2, Or.inr (Or.inl ⟨tag.getD ("None"), he.1⟩)⟩
  | some img =>
    by_cases hs : env.saveRaises
    · simp [runCycle, hc, hs] at he
    · simp [runCycle, hc, hs] at he
      rcases he with h | h
      · cases btCard with
        | none => simp [btRoute] at h
        | some c => simp [btRoute] at h
      · refine ⟨h.2, ?_⟩
        rw [h.1]
        cases hd : call_gemini_for_image env.gem with
        | none => exact Or.inl rfl
        | some j =>
          cases j with
          | obj kvs =>
            exact Or.inr (Or.inr ⟨_, _, _, rfl⟩)
          | null => exact Or.inl rfl
          | bool b => exact Or.inl rfl
          | num n => exact Or.inl rfl
          | str s => exact Or.inl rfl
          | arr xs => exact Or.inl rfl

theorem countP_sleeps (p : Event → Bool) (n : Nat) (hp : p Event.sleepSlice = false) :
    (List.replicate n Event.sleepSlice).countP p = 0 := by
  refine List.countP_eq_zero.mpr ?_
  intro a ha
  rw [List.eq_of_mem_replicate ha, hp]
  exact Bool.false_ne_true

theorem shutdownTrace_counts (btCard : Option String) (b : Bool) :
    (shutdownTrace btCard b).countP isStart = 0 ∧
    (shutdownTrace btCard b).countP isExit = 1 ∧
    (shutdownTrace btCard b).countP isSpeak = (if b then 1 else 0) ∧
    (shutdownTrace btCard b).countP isBlockingSpeak = (if b then 1 else 0) := by
  cases btCard <;> cases b <;>
    simp [shutdownTrace, btReassert, isStart, isExit, isSpeak, isBlockingSpeak,
      List.countP_cons, List.countP_append]

/-- Shared unfolding: an iteration whose body raised ends the loop
through the outer handler and the `finally` block. -/
theorem runCyclesAux_abort (btCard : Option String) (envs : Nat → CycleEnv)
    (i n : Nat) (h : (runCycle btCard (envs i)).2 = true) :
    runCyclesAux btCard envs i (n + 1) = Event.cycleStart i :: shutdownTrace btCard false := by
  show Event.cycleStart i ::
      ((runCycle btCard (envs i)).1 ++ (if (runCycle btCard (envs i)).2 then shutdownTrace btCard false
        else sleepEvents ++ runCyclesAux btCard envs (i + 1) n)) = _
  rw [runCycle_abort_nil btCard (envs i) h, h]
  simp

/-- Shared unfolding: an iteration that completes sleeps the full fixed
slice count and only then does the next iteration's trace follow. -/
theorem runCyclesAux_step (btCard : Option String) (envs : Nat → CycleEnv)
    (i n : Nat) (h : (runCycle btCard (envs i)).2 = false) :
    runCyclesAux btCard envs i (n + 1) =
      (Event.cycleStart i :: ((runCycle btCard (envs i)).1
          ++ List.replicate sleepSliceCount Event.sleepSlice))
        ++ runCyclesAux btCard envs (i + 1) n := by
  show Event.cycleStart i ::
      ((runCycle btCard (envs i)).1 ++ (if (runCycle btCard (envs i)).2 then shutdownTrace btCard false
        else sleepEvents ++ runCyclesAux btCard envs (i + 1) n)) = _
  rw [h]
  simp [sleepEvents, List.append_assoc]

theorem runCycle_countP_zero (btCard : Option String) (env : CycleEnv) :
    (runCycle btCard env).1.countP isStart = 0 ∧
    (runCycle btCard env).1.countP isBlockingSpeak = 0 ∧
    (runCycle btCard env).1.countP isExit = 0 := by
  refine ⟨?_, ?_, ?_⟩ <;> refine List.countP_eq_zero.mpr ?_ <;> intro e he <;>
    have hk := runCycle_event_kinds btCard env e he
  · simp [hk.1]
  · simp [hk.2.1]
  · simp [hk.2.2]

/-- Normal form of an interrupted run: when no iteration up to the
interrupted one aborts, the trace is a body of `k + 1` cycles (holding
no blocking speech, no loop start beyond those, and no exit) followed
by the interrupt shutdown. -/
theorem runInterruptAux_shape (btCard : Option String) (envs : Nat → CycleEnv) :
    ∀ k i slice, (∀ j, j ≤ k → (runCycle btCard (envs (i + j))).2 = false) →
    ∃ body, runInterruptAux btCard envs i k slice = body ++ shutdownTrace btCard true ∧
      body.countP isStart = k + 1 ∧ body.countP isBlockingSpeak = 0 ∧
      body.countP isExit = 0 := by
  intro k
  induction k with
  | zero =>
    intro i slice h
    have h0 := h 0 (Nat.le_refl 0)
    rw [Nat.add_zero] at h0
    have hz := runCycle_countP_zero btCard (envs i)
    refine ⟨Event.cycleStart i ::
      ((runCycle btCard (envs i)).1 ++ List.replicate slice Event.sleepSlice), ?_, ?_, ?_, ?_⟩
    · show Event.cycleStart i ::
        ((runCycle btCard (envs i)).1 ++ (if (runCycle btCard (envs i)).2 then shutdownTrace btCard false
          else List.replicate slice Event.sleepSlice ++ shutdownTrace btCard true)) = _
      rw [h0]
      simp [List.append_assoc]
    · simp [List.countP_cons, List.countP_append, hz.1,
        countP_sleeps isStart slice rfl, isStart]
    · simp [List.countP_cons, List.countP_append, hz.2.1,
        countP_sleeps isBlockingSpeak slice rfl, isBlockingSpeak]
    · simp [List.countP_cons, List.countP_append, hz.2.2,
        countP_sleeps isExit slice rfl, isExit]
  | succ k ih =>
    intro i slice h
    have h0 := h 0 (Nat.zero_le _)
    rw [Nat.add_zero] at h0
    obtain ⟨body, heq, hcs, hcb, hcx⟩ := ih (i + 1) slice (fun j hj => by
      have hh := h (j + 1) (Nat.succ_le_succ hj)
      rwa [show i + (j + 1) = i + 1 + j by omega] at hh)
    have hz := runCycle_countP_zero btCard (envs i)
    refine ⟨Event.cycleStart i ::
      ((runCycle btCard (envs i)).1 ++ (sleepEvents ++ body)), ?_, ?_, ?_, ?_⟩
    · show Event.cycleStart i ::
        ((runCycle btCard (envs i)).1 ++ (if (runCycle btCard (envs i)).2 then shutdownTrace btCard false
          else sleepEvents ++ runInterruptAux btCard envs (i + 1) k slice)) = _
      rw [h0, heq]
      simp [List.append_assoc]
    · simp [List.countP_cons, List.countP_append, hz.1, hcs, sleepEvents,
        countP_sleeps isStart sleepSliceCount rfl, isStart]
    · simp [List.countP_cons, List.countP_append, hz.2.1, hcb, sleepEvents,
        countP_sleeps isBlockingSpeak sleepSliceCount rfl, isBlockingSpeak]
    · simp [List.countP_cons, List.countP_append, hz.2.2, hcx, sleepEvents,
        countP_sleeps isExit sleepSliceCount rfl, isExit]

/-! ## Concrete environments used by counterexamples and witnesses -/

/-- A capture environment in which everything succeeds: `rpicam-still`
is installed, no stale scratch file, the process exits 0 with empty
stderr, the output file exists and decodes. -/
def envOkCapture : CaptureEnv :=
  { which := fun p => if p = "rpicam-still" then some ("/usr/bin/rpicam-still") else none,
    tempExists0 := false, removeRaises := false,
    run := RunOutcome.done 0 (""), tempExistsAfter := true, openRaises := false }

/-- A cycle in which capture succeeds, `im.save` does not raise, and the
detection client never initialized. -/
def envGood : CycleEnv :=
  { cap := envOkCapture, ts := 1000, saveRaises := false, gem := GeminiEnv.noClient }

/-- A cycle in which capture succeeds but `im.save(fname)` raises. -/
def envAbort : CycleEnv :=
  { cap := envOkCapture, ts := 1000, saveRaises := true, gem := GeminiEnv.noClient }

/-- A capture environment with no camera backend installed. -/
def envNoCam : CaptureEnv :=
  { which := fun _ => none, tempExists0 := false, removeRaises := false,
    run := RunOutcome.done 0 (""), tempExistsAfter := true, openRaises := false }

/-! ## Claims -/

/-- C1, counterexample.  The claim says an exception raised within a
cycle (here: `im.save(fname)` raising, the one statement of the loop
body whose exceptions are not converted to a failure tag) is caught,
logged, treated as a no-detection cycle, and the loop continues with
the next cycle.  In the source the `try`/`except Exception` surrounds
the whole `while`, so the escaping exception ends the loop: observed
for two iterations' budget, the trace starts only one cycle and ends
with process exit, whereas the same budget without the save failure
starts two cycles and does not exit. -/
theorem cycle_exception_ends_loop_counterex :
    runCyclesAux none (fun _ => envAbort) 0 2 = [Event.cycleStart 0, Event.exit] ∧
    (runCyclesAux none (fun _ => envAbort) 0 2).countP isStart = 1 ∧
    (runCyclesAux none (fun _ => envGood) 0 2).countP isStart = 2 ∧
    (runCyclesAux none (fun _ => envGood) 0 2).countP isExit = 0 :=
  ⟨rfl, by decide, by decide, by decide⟩

/-- C1, amended.  An exception raised within a cycle that was not
converted to a failure tag escapes to the loop boundary, where the
outer handler catches and logs it — but the loop then terminates: the
aborted cycle produces no announcement, no further cycle starts, the
`finally` block re-asserts the route and the process exits.  Both an
external interrupt and an escaping internal exception end the loop. -/
theorem cycle_exception_terminates_loop (btCard : Option String)
    (envs : Nat → CycleEnv) (i n : Nat) (h : (runCycle btCard (envs i)).2 = true) :
    runCyclesAux btCard envs i (n + 1) = Event.cycleStart i :: shutdownTrace btCard false ∧
    (runCyclesAux btCard envs i (n + 1)).countP isStart = 1 ∧
    (runCyclesAux btCard envs i (n + 1)).countP isSpeak = 0 ∧
    (runCyclesAux btCard envs i (n + 1)).countP isExit = 1 := by
  have he := runCyclesAux_abort btCard envs i n h
  have hc := shutdownTrace_counts btCard false
  refine ⟨he, ?_, ?_, ?_⟩ <;> rw [he] <;>
    simp [List.countP_cons, hc.1, hc.2.1, hc.2.2.1, hc.2.2.2, isStart, isSpeak, isExit]

theorem cycle_exception_terminates_loop_witness :
    (runCycle none ((fun _ => envAbort) 0)).2 = true ∧
    runCyclesAux none (fun _ => envAbort) 0 3 =
      Event.cycleStart 0 :: shutdownTrace none false :=
  ⟨rfl, (cycle_exception_terminates_loop none (fun _ => envAbort) 0 2 rfl).1⟩

/-- C2, counterexample.  The claim says every cycle speaks exactly one
announcement regardless of which component failed.  A cycle whose
`im.save` raises speaks none: its trace holds zero speak events (and it
additionally ends the loop). -/
theorem aborted_cycle_silent_counterex :
    (runCycle none envAbort).1.countP isSpeak = 0 ∧
    (runCyclesAux none (fun _ => envAbort) 0 1).countP isSpeak = 0 ∧
    (runCyclesAux none (fun _ => envAbort) 0 1).countP isStart = 1 := by
  decide

/-- C2, amended.  Every cycle that completes without an escaping
exception speaks exactly one announcement, and it is non-blocking with
one of the three shapes: the formatted detection result, the fixed
fallback `"Detection unavailable."`, or a capture-failure phrase.  A
cycle aborted by an escaping exception (a frame-write error) speaks
nothing and ends the loop. -/
theorem completed_cycle_announces_once (btCard : Option String) (env : CycleEnv)
    (h : (runCycle btCard env).2 = false) :
    (runCycle btCard env).1.countP isSpeak = 1 ∧
    ∀ t b, Event.speak t b ∈ (runCycle btCard env).1 → b = false ∧ isAnnouncementShape t :=
  ⟨runCycle_speak_once btCard env h, runCycle_speak_shape btCard env⟩

theorem completed_cycle_announces_once_witness :
    (runCycle none envGood).2 = false ∧ (runCycle none envGood).1.countP isSpeak = 1 :=
  ⟨rfl, (completed_cycle_announces_once none envGood rfl).1⟩

/-- C3, counterexample.  The claim says a failing image write is logged
and the cycle still proceeds to Detecting.  In the source `im.save` is
not guarded inside the loop body: with capture succeeded and the write
raising, the cycle runs no Detecting step (no detection call in its
trace), aborts, and the loop exits. -/
theorem persist_failure_counterex :
    (capture_image envOkCapture).1 = some (Image.mk TEMP_IMAGE_FILE) ∧
    envAbort.saveRaises = true ∧
    runCycle none envAbort = ([], true) ∧
    (runCycle none envAbort).1.countP isDetect = 0 ∧
    (runCyclesAux none (fun _ => envAbort) 0 1).countP isExit = 1 :=
  ⟨rfl, rfl, rfl, rfl, by decide⟩

/-- C3, amended.  When capture succeeded and writing the image file
raises, the error escapes the cycle: the cycle performs neither the
frame save nor the Detecting step, the exception reaches the loop
boundary where it is caught and logged, and the loop terminates through
the `finally` block. -/
theorem persist_failure_aborts_cycle (btCard : Option String)
    (envs : Nat → CycleEnv) (i n : Nat)
    (h1 : (capture_image (envs i).cap).1.isSome = true)
    (h2 : (envs i).saveRaises = true) :
    runCycle btCard (envs i) = ([], true) ∧
    runCyclesAux btCard envs i (n + 1) = Event.cycleStart i :: shutdownTrace btCard false := by
  have hr : runCycle btCard (envs i) = ([], true) := by
    rcases hc : capture_image (envs i).cap with ⟨im, tag, d⟩
    cases im with
    | none => rw [hc] at h1; simp at h1
    | some img => simp [runCycle, hc, h2]
  exact ⟨hr, runCyclesAux_abort btCard envs i n (by rw [hr])⟩

theorem persist_failure_aborts_cycle_witness :
    (capture_image ((fun _ => envAbort) 0).cap).1.isSome = true ∧
    ((fun _ => envAbort) 0).saveRaises = true ∧
    runCycle none envAbort = ([], true) :=
  ⟨rfl, rfl, (persist_failure_aborts_cycle none (fun _ => envAbort) 0 0 rfl rfl).1⟩

/-- Definition following the spec's words for C4: a fully populated
detection record has exactly the three keys, with a string currency, a
numeric denomination, and a confidence drawn from high/medium/low. -/
def isDetectionRecordB : Json → Bool
  | Json.obj kvs =>
    (kvs.length == 3) &&
      (match objGet kvs ("currency"), objGet kvs ("denomination"),
          objGet kvs ("confidence") with
        | some (Json.str _), some (Json.num _), some (Json.str c) =>
          c == "high" || c == "medium" || c == "low"
        | _, _, _ => false)
  | _ => false

/-- C4, counterexample.  The claim says every non-null result of the
detection call is a fully populated three-key record.  The source
returns `json.loads(raw)` with no shape validation: the well-formed
JSON response `{}` yields the non-null empty object, which is not such
a record. -/
theorem detect_unvalidated_counterex :
    call_gemini_for_image (GeminiEnv.responds ("\x7b\x7d")) = some (Json.obj []) ∧
    isDetectionRecordB (Json.obj []) = false :=
  ⟨rfl, rfl⟩

/-- C4, amended.  `call_gemini_for_image` returns null — without
raising or blocking — when the client failed to initialize at startup,
when the call raises, and exactly when the stripped response text does
not parse as JSON; but a non-null result is the raw parsed JSON value,
with no validation of its shape against the three-key contract. -/
theorem detect_null_cases :
    call_gemini_for_image GeminiEnv.noClient = none ∧
    call_gemini_for_image GeminiEnv.callRaises = none ∧
    (∀ t, call_gemini_for_image (GeminiEnv.responds t) = none ↔
      jsonParse (stripResponseText t) = none) ∧
    (∀ t j, call_gemini_for_image (GeminiEnv.responds t) = some j →
      jsonParse (stripResponseText t) = some j) :=
  ⟨rfl, rfl, fun _ => Iff.rfl, fun _ _ h => h⟩

theorem detect_null_cases_witness :
    call_gemini_for_image (GeminiEnv.responds ("not json at all")) = none :=
  (detect_null_cases.2.2.1 ("not json at all")).mpr rfl

/-- C5, confirmed.  `capture_image` is a total function of its
environment (no exception escapes it) and maps every failure to exactly
one of the five tags, spelled in the source as `"no_camera"`
(the spec's `no_backend_available`), `"camera_failed"`
(`process_nonzero_exit`, with the stripped stderr as diagnostic),
`"file_missing"` (`output_file_missing`), `"timeout"` and
`"exception"` (`unexpected_exception`): with no backend installed it
returns `no_camera` without reaching the subprocess call; the
subprocess exceeding the 18 s wall clock yields `timeout`; any other
exception during process handling yields `exception`; a non-zero exit
yields `camera_failed` carrying the captured stderr; a missing output
file despite exit 0 yields `file_missing`. -/
theorem capture_failure_taxonomy (env : CaptureEnv) :
    (get_camera_command env.which TEMP_IMAGE_FILE CAM_WIDTH CAM_HEIGHT CAM_TIMEOUT_MS = none →
      capture_image env = (none, some ("no_camera"), none) ∧ capture_spawns env = false) ∧
    ((capture_image env).2.1 = none ∨ (capture_image env).2.1 = some ("no_camera") ∨
      (capture_image env).2.1 = some ("camera_failed") ∨
      (capture_image env).2.1 = some ("file_missing") ∨
      (capture_image env).2.1 = some ("timeout") ∨
      (capture_image env).2.1 = some ("exception")) ∧
    ((capture_image env).2.1 = none → (capture_image env).1.isSome = true) ∧
    (capture_spawns env = true → env.run = RunOutcome.timeoutExpired →
      capture_image env = (none, some ("timeout"), none)) ∧
    (capture_spawns env = true → env.run = RunOutcome.raised →
      capture_image env = (none, some ("exception"), none)) ∧
    (∀ rc e, capture_spawns env = true → env.run = RunOutcome.done rc e → rc ≠ 0 →
      capture_image env = (none, some ("camera_failed"), some (pyStrip e))) ∧
    (∀ rc e, capture_spawns env = true → env.run = RunOutcome.done rc e → rc = 0 →
      env.tempExistsAfter = false →
      capture_image env = (none, some ("file_missing"), some (pyStrip e))) := by
  rcases hcmd : get_camera_command env.which TEMP_IMAGE_FILE CAM_WIDTH CAM_HEIGHT CAM_TIMEOUT_MS
    with _ | cmd
  · have hci : capture_image env = (none, some ("no_camera"), none) := by
      simp [capture_image, hcmd]
    have hsp : capture_spawns env = false := by simp [capture_spawns, hcmd]
    refine ⟨fun _ => ⟨hci, hsp⟩, ?_, ?_, ?_, ?_, ?_, ?_⟩ <;> simp [hci, hsp]
  · by_cases hpre : (env.tempExists0 && env.removeRaises) = true
    · have hci : capture_image env = (none, some ("exception"), none) := by
        simp [capture_image, hcmd, hpre]
      have hsp : capture_spawns env = false := by simp [capture_spawns, hcmd, hpre]
      refine ⟨?_, ?_, ?_, ?_, ?_, ?_, ?_⟩ <;> simp [hci, hsp, hcmd]
    · have hpre' : (env.tempExists0 && env.removeRaises) = false := by
        simpa using hpre
      have hsp : capture_spawns env = true := by
        simp [capture_spawns, hcmd, hpre']
      cases hrun : env.run with
      | timeoutExpired =>
        have hci : capture_image env = (none, some ("timeout"), none) := by
          simp [capture_image, hcmd, hpre', hrun]
        refine ⟨?_, ?_, ?_, ?_, ?_, ?_, ?_⟩ <;> simp [hci, hsp, hcmd, hrun]
      | raised =>
        have hci : capture_image env = (none, some ("exception"), none) := by
          simp [capture_image, hcmd, hpre', hrun]
        refine ⟨?_, ?_, ?_, ?_, ?_, ?_, ?_⟩ <;> simp [hci, hsp, hcmd, hrun]
      | done rc e =>
        by_cases hrc : rc = 0
        · by_cases hta : env.tempExistsAfter
          · by_cases hop : env.openRaises
            · have hci : capture_image env = (none, some ("exception"), none) := by
                simp [capture_image, hcmd, hpre', hrun, hrc, hta, hop]
              refine ⟨?_, ?_, ?_, ?_, ?_, ?_, ?_⟩ <;> simp [hci, hsp, hcmd, hrun, hrc, hta]
            · have hci : capture_image env =
                  (some (Image.mk TEMP_IMAGE_FILE), none, some (pyStrip e)) := by
                simp [capture_image, hcmd, hpre', hrun, hrc, hta, hop]
              refine ⟨?_, ?_, ?_, ?_, ?_, ?_, ?_⟩ <;> simp [hci, hsp, hcmd, hrun, hrc, hta]
          · have hci : capture_image env = (none, some ("file_missing"), some (pyStrip e)) := by
              simp [capture_image, hcmd, hpre', hrun, hrc, hta]
            refine ⟨?_, ?_, ?_, ?_, ?_, ?_, ?_⟩ <;> simp [hci, hsp, hcmd, hrun, hrc]
        · have hci : capture_image env = (none, some ("camera_failed"), some (pyStrip e)) := by
            simp [capture_image, hcmd, hpre', hrun, hrc]
          refine ⟨?_, ?_, ?_, ?_, ?_, ?_, ?_⟩ <;> simp [hci, hsp, hcmd, hrun, hrc]

theorem capture_failure_taxonomy_witness :
    get_camera_command envNoCam.which TEMP_IMAGE_FILE CAM_WIDTH CAM_HEIGHT CAM_TIMEOUT_MS
      = none ∧
    (capture_image envNoCam = (none, some ("no_camera"), none) ∧
      capture_spawns envNoCam = false) :=
  ⟨rfl, (capture_failure_taxonomy envNoCam).1 rfl⟩

/-- The spec's example response for C6: a code-fenced, `json`-tagged
twenty-dollar detection. -/
def fencedResponse : String :=
  "```json\n\x7b\"currency\":\"USD\",\"denomination\":20,\"confidence\":\"high\"\x7d\n```"

/-- C6, confirmed.  Stripping the fence and language tag from the
example response and parsing the remainder yields exactly the record
with currency `"USD"`, denomination `20`, confidence `"high"`. -/
theorem fenced_response_parses :
    stripResponseText fencedResponse =
      "\x7b\"currency\":\"USD\",\"denomination\":20,\"confidence\":\"high\"\x7d" ∧
    call_gemini_for_image (GeminiEnv.responds fencedResponse) =
      some (Json.obj [(("currency"), Json.str ("USD")), (("denomination"), Json.num 20),
        (("confidence"), Json.str ("high"))]) :=
  ⟨rfl, rfl⟩

/-- A profile environment in which the `set-card-profile` call succeeds
(exit code 0) but the sink listing's matching line consists of the card
name alone, so `l.split()[1]` raises `IndexError` inside the `try`. -/
def profEnvX : ProfileEnv :=
  { setProfile := SetProfileOutcome.done 0, sinksOut := some ("bluez_card.X"),
    setDefaultRaises := false }

/-- C7, counterexample.  The claim says `ensureProfile` returns false
only when the profile-set call itself fails.  Here the profile-set call
succeeds (`returncode = 0`), yet the function returns false, because
scanning the matching sink line for its second field raises and the
surrounding `except` converts that to `False`. -/
theorem ensure_profile_false_counterex :
    profEnvX.setProfile = SetProfileOutcome.done 0 ∧
    (set_card_profile profEnvX ("bluez_card.X") A2DP_PROFILE none).1 = false :=
  ⟨rfl, rfl⟩

/-- An error during the sink-activation scan: the first sink line
containing the card has no second field, or the `set-default-sink` call
raises. -/
def sinkScanFails (env : ProfileEnv) (card : String) : Prop :=
  ∃ l, (pySplitlines (env.sinksOut.getD (""))).find? (fun l2 => hasSub card.data l2.data)
      = some l ∧
    ((pySplit l)[1]? = none ∨ env.setDefaultRaises = true)

/-- C7, amended.  `set_card_profile` is idempotent — re-running it with
the same outcomes reproduces the same success verdict and the same
default sink — and a missing matching sink after the settle wait still
yields success; but it returns false not only when the profile-set call
fails (raises, or exits non-zero) but also when the sink-activation
scan fails after a successful profile set. -/
theorem ensure_profile_idempotent (env : ProfileEnv) (card profile : String)
    (st : Option String) :
    (set_card_profile env card profile ((set_card_profile env card profile st).2)
        = set_card_profile env card profile st) ∧
    (∀ rc, env.setProfile = SetProfileOutcome.done rc → rc = 0 →
      (pySplitlines (env.sinksOut.getD (""))).find? (fun l => hasSub card.data l.data)
        = none →
      set_card_profile env card profile st = (true, st)) ∧
    ((set_card_profile env card profile st).1 = false →
      env.setProfile = SetProfileOutcome.raised ∨
      (∃ rc, env.setProfile = SetProfileOutcome.done rc ∧ rc ≠ 0) ∨
      sinkScanFails env card) := by
  cases hsp : env.setProfile with
  | raised =>
    have hres : set_card_profile env card profile st = (false, st) := by
      simp [set_card_profile, hsp]
    refine ⟨?_, ?_, ?_⟩
    · rw [hres]
      exact hres
    · intro rc hd
      cases hd
    · intro _
      exact Or.inl rfl
  | done rc =>
    by_cases hrc : rc = 0
    · cases hfind : (pySplitlines (env.sinksOut.getD (""))).find?
        (fun l => hasSub card.data l.data) with
      | none =>
        have hres : set_card_profile env card profile st = (true, st) := by
          simp [set_card_profile, hsp, hrc, hfind]
        refine ⟨?_, ?_, ?_⟩
        · rw [hres]
          exact hres
        · intro _ _ _ _
          exact hres
        · intro hf
          rw [hres] at hf
          simp at hf
      | some l =>
        cases hget : (pySplit l)[1]? with
        | none =>
          have hres : set_card_profile env card profile st = (false, st) := by
            simp [set_card_profile, hsp, hrc, hfind, hget]
          refine ⟨?_, ?_, ?_⟩
          · rw [hres]
            exact hres
          · intro rc' hd h0 hf
            cases hf
          · intro _
            exact Or.inr (Or.inr ⟨l, hfind, Or.inl hget⟩)
        | some sink =>
          cases hdr : env.setDefaultRaises with
          | true =>
            have hres : set_card_profile env card profile st = (false, st) := by
              simp [set_card_profile, hsp, hrc, hfind, hget, hdr]
            refine ⟨?_, ?_, ?_⟩
            · rw [hres]
              exact hres
            · intro rc' hd h0 hf
              cases hf
            · intro _
              exact Or.inr (Or.inr ⟨l, hfind, Or.inr hdr⟩)
          | false =>
            have hres : set_card_profile env card profile st = (true, some sink) := by
              simp [set_card_profile, hsp, hrc, hfind, hget, hdr]
            have hres2 : set_card_profile env card profile (some sink)
                = (true, some sink) := by
              simp [set_card_profile, hsp, hrc, hfind, hget, hdr]
            refine ⟨?_, ?_, ?_⟩
            · rw [hres]
              exact hres2
            · intro rc' hd h0 hf
              cases hf
            · intro hf
              rw [hres] at hf
              simp at hf
    · have hres : set_card_profile env card profile st = (false, st) := by
        simp [set_card_profile, hsp, hrc]
      refine ⟨?_, ?_, ?_⟩
      · rw [hres]
        exact hres
      · intro rc' hd h0
        cases hd
        exact absurd h0 hrc
      · intro _
        exact Or.inr (Or.inl ⟨rc, rfl, hrc⟩)

/-- A profile environment whose sink listing holds no line containing
the card: success is reported with the default sink untouched. -/
def profEnvW : ProfileEnv :=
  { setProfile := SetProfileOutcome.done 0, sinksOut := some ("0 other_sink rest"),
    setDefaultRaises := false }

theorem ensure_profile_idempotent_witness :
    profEnvW.setProfile = SetProfileOutcome.done 0 ∧
    set_card_profile profEnvW ("bluez_card.Z") A2DP_PROFILE none = (true, none) :=
  ⟨rfl, (ensure_profile_idempotent profEnvW ("bluez_card.Z") A2DP_PROFILE none).2.1
    0 rfl rfl rfl⟩

/-- Definition following the spec's words for C8: a Sleeping step that
waits until `INTERVAL` has elapsed since the cycle began sleeps only
the remainder of the interval after the cycle's work (in quarter-second
slices). -/
def specSleepSlices (workSlices : Nat) : Nat := INTERVAL_Q - workSlices

/-- C8, counterexample.  The source's sleep loop always performs the
full 20 quarter-second slices, whatever the cycle's work took: for a
cycle whose work lasted 4 slices (one second), sleeping measured from
the beginning of the cycle would stop after 16 slices, and the code's
cycle spans 24 slices since its beginning, not the 20 the claim's
measurement implies. -/
theorem sleep_from_work_end_counterex :
    sleepSliceCount = 20 ∧ specSleepSlices 4 = 16 ∧
    sleepSliceCount ≠ specSleepSlices 4 ∧ 4 + sleepSliceCount ≠ INTERVAL_Q := by
  decide

/-- C8, amended.  The Sleeping state performs a fixed number of short
slices — `INTERVAL` in quarter seconds, measured from the end of the
cycle's work, not from the beginning of the cycle — and the next
cycle's Capturing appears in the trace only after the current cycle's
full sleep. -/
theorem sleep_fixed_after_work (btCard : Option String) (envs : Nat → CycleEnv)
    (i n : Nat) (h : (runCycle btCard (envs i)).2 = false) :
    sleepSliceCount = INTERVAL_Q ∧
    runCyclesAux btCard envs i (n + 1) =
      (Event.cycleStart i :: ((runCycle btCard (envs i)).1
        ++ List.replicate sleepSliceCount Event.sleepSlice))
        ++ runCyclesAux btCard envs (i + 1) n :=
  ⟨by decide, runCyclesAux_step btCard envs i n h⟩

theorem sleep_fixed_after_work_witness :
    (runCycle none envGood).2 = false ∧
    runCyclesAux none (fun _ => envGood) 0 1 =
      (Event.cycleStart 0 :: ((runCycle none envGood).1
        ++ List.replicate sleepSliceCount Event.sleepSlice))
        ++ runCyclesAux none (fun _ => envGood) 1 0 :=
  ⟨rfl, (sleep_fixed_after_work none (fun _ => envGood) 0 0 rfl).2⟩

/-- C9, confirmed.  When a `KeyboardInterrupt` arrives during the sleep
of cycle `k` (and no earlier cycle aborted), the whole run is a body of
exactly `k + 1` started cycles followed by the shutdown: one final
blocking announcement — the only blocking speech of the entire trace —
then the route re-assertion of the `finally` block, then process exit;
no further cycle starts. -/
theorem interrupt_clean_shutdown (cardsOut : Option String) (envs : Nat → CycleEnv)
    (k slice : Nat)
    (h : ∀ j, j ≤ k → (runCycle (find_bt_card cardsOut) (envs j)).2 = false) :
    ∃ body,
      main_loop_interrupted cardsOut envs k slice =
        body ++ (Event.speak ("Stopping capture. Goodbye.") true ::
          (btReassert (find_bt_card cardsOut) ++ [Event.exit])) ∧
      body.countP isStart = k + 1 ∧
      body.countP isBlockingSpeak = 0 ∧
      body.countP isExit = 0 ∧
      (main_loop_interrupted cardsOut envs k slice).countP isBlockingSpeak = 1 ∧
      (main_loop_interrupted cardsOut envs k slice).countP isStart = k + 1 := by
  obtain ⟨body, heq, hcs, hcb, hcx⟩ :=
    runInterruptAux_shape (find_bt_card cardsOut) envs k 0 slice
      (fun j hj => by simpa using h j hj)
  have hshut : shutdownTrace (find_bt_card cardsOut) true =
      Event.speak ("Stopping capture. Goodbye.") true ::
        (btReassert (find_bt_card cardsOut) ++ [Event.exit]) := by
    simp [shutdownTrace]
  have hmain : main_loop_interrupted cardsOut envs k slice =
      (startupSpeak :: body) ++ (Event.speak ("Stopping capture. Goodbye.") true ::
        (btReassert (find_bt_card cardsOut) ++ [Event.exit])) := by
    show startupSpeak :: runInterruptAux (find_bt_card cardsOut) envs 0 k slice = _
    rw [heq, hshut]
    simp
  have hsc := shutdownTrace_counts (find_bt_card cardsOut) true
  refine ⟨startupSpeak :: body, hmain, ?_, ?_, ?_, ?_, ?_⟩
  · simp [List.countP_cons, hcs, startupSpeak, isStart]
  · simp [List.countP_cons, hcb, startupSpeak, isBlockingSpeak]
  · simp [List.countP_cons, hcx, startupSpeak, isExit]
  · rw [hmain, ← hshut, List.countP_append, List.countP_cons]
    simp [hcb, hsc.2.2.2, startupSpeak, isBlockingSpeak]
  · rw [hmain, ← hshut, List.countP_append, List.countP_cons]
    simp [hcs, hsc.1, startupSpeak, isStart]

theorem interrupt_clean_shutdown_witness :
    (main_loop_interrupted none (fun _ => envGood) 1 3).countP isBlockingSpeak = 1 :=
  (interrupt_clean_shutdown none (fun _ => envGood) 1 3 (fun _ _ => rfl)).elim
    (fun _ hb => hb.2.2.2.2.1)

/-- The per-line Bluetooth-card test as a boolean. -/
def btLineMatchB (l : String) : Bool := (btLineCard l).isSome

theorem findBtLines_all_none (ls : List String)
    (h : ls.all (fun l => !(btLineMatchB l)) = true) : findBtLines ls = none := by
  induction ls with
  | nil => rfl
  | cons l ls ih =>
    rw [List.all_cons] at h
    have h1 := (Bool.and_eq_true _ _).mp h
    cases hbl : btLineCard l with
    | some c =>
      exfalso
      have : btLineMatchB l = true := by simp [btLineMatchB, hbl]
      rw [this] at h1
      simpa using h1.1
    | none =>
      show findBtLines (l :: ls) = none
      simp only [findBtLines, hbl]
      exact ih h1.2

/-- C10, confirmed.  Bluetooth card discovery is a total function of
the card-listing output that cannot distinguish a failed listing
command from an absent Bluetooth card: when `run_cmd` returned `None`,
or when no listed line has a second field starting with `bluez_card`,
`find_bt_card` returns `None` — and with no card the cycle performs no
routing call and otherwise proceeds normally (its one announcement
still happens whenever the cycle completes). -/
theorem bt_discovery_null_collapse :
    find_bt_card none = none ∧
    find_bt_card none = find_bt_card (some ("")) ∧
    (∀ cardsOut : Option String,
      ((pySplitlines (cardsOut.getD (""))).all (fun l => !(btLineMatchB l))) = true →
      find_bt_card cardsOut = none) ∧
    (∀ env : CycleEnv, (runCycle none env).1.countP isRoute = 0) := by
  refine ⟨rfl, rfl, ?_, ?_⟩
  · intro cardsOut h
    exact findBtLines_all_none _ h
  · intro env
    rcases hc : capture_image env.cap with ⟨im, tag, d⟩
    cases im with
    | none => simp [runCycle, hc, isRoute]
    | some img =>
      by_cases hs : env.saveRaises
      · simp [runCycle, hc, hs]
      · simp [runCycle, hc, hs, btRoute, isRoute, List.countP_cons, List.countP_append]

theorem bt_discovery_null_collapse_witness :
    ((pySplitlines ((some ("0 alsa_card.pci driver")).getD (""))).all
      (fun l => !(btLineMatchB l))) = true ∧
    find_bt_card (some ("0 alsa_card.pci driver")) = none ∧
    (runCycle none envGood).1.countP isRoute = 0 :=
  ⟨rfl, bt_discovery_null_collapse.2.2.1 (some ("0 alsa_card.pci driver")) rfl,
    bt_discovery_null_collapse.2.2.2 envGood⟩

end BlindAssist
